import Mathlib

/-!
Verification of the "Master Jazz Pianist API" backend (`src/main.py`,
`src/schemas.py`) against its natural-language specification.

The repository's handlers are shallowly embedded as pure Lean functions over
an explicit store state.  The data access layer (`database.py`: `db`,
`create_document`, `get_documents`) is imported by `main.py` but is not part
of the source tree, so it is modelled from the spec's Data Access Layer
description.  Storage failure is modelled by an optional error message on the
database handle: when present, every storage operation raises it, matching
the spec's StorageError on connection loss.
-/

/-- `Chord` document schema, from `src/schemas.py`. -/
structure Chord where
  name : String
  symbol : String
  root : String
  quality : String
  notes : List String
  extensions : Option (List String)
  voicings : Option (List (List String))
  tags : Option (List String)
deriving DecidableEq

/-- `Progression` document schema, from `src/schemas.py`. -/
structure Progression where
  name : String
  key : String
  roman_numerals : List String
  chords : List String
  style : Option String
deriving DecidableEq

/-- `Lesson` document schema, from `src/schemas.py`. -/
structure Lesson where
  title : String
  level : String
  content : String
  tags : Option (List String)
deriving DecidableEq

/-- `Favorite` document schema, from `src/schemas.py`. -/
structure Favorite where
  client_id : String
  kind : String
  ref : String
  note : Option String
deriving DecidableEq

/-- The document store: one collection per schema.  Each stored document
carries its store-generated id (a `Nat`); `nextId` is the next id the store
will assign.  Per the spec, the data access layer owns document identity. -/
structure Store where
  chords : List (Nat × Chord)
  progressions : List (Nat × Progression)
  lessons : List (Nat × Lesson)
  favorites : List (Nat × Favorite)
  nextId : Nat
deriving DecidableEq

/-- The database handle seen by the handlers.  `fail = some e` models a
storage (connection/query) failure: every data access call raises `e`. -/
structure DB where
  store : Store
  fail : Option String
deriving DecidableEq

/-- An HTTP error response (FastAPI `HTTPException`): status code and detail. -/
structure Http where
  status : Nat
  detail : String
deriving DecidableEq

/-- A one-field status body, `\x7b"status": ...\x7d`, as returned by
`POST /seed` ("ok") and `POST /favorites` ("saved"). -/
structure StatusResp where
  status : String
deriving DecidableEq

/-- Modelled from the spec: `database.py` is not under `src/`.  Per the spec's
Data Access Layer, `getDocuments(collection, filter, limit)` returns the
ordered sequence (store's natural order) of records matching the filter, each
with its generated id; an empty filter (`fun _ => true`) returns all;
`limit = 0` means unbounded; fails with StorageError on connection loss. -/
def getDocs (fail : Option String) (docs : List (Nat × α))
    (flt : Nat × α → Bool) (limit : Nat) : Except String (List (Nat × α)) :=
  match fail with
  | some e => .error e
  | none =>
    let m := docs.filter flt
    .ok (if limit = 0 then m else m.take limit)

/-- Modelled from the spec: `database.py` is not under `src/`.  Per the spec's
Data Access Layer, `createDocument(collection, doc)` inserts one validated
record, the store assigning the generated id; fails with StorageError on
connection loss.  Returns the updated collection and next id. -/
def createDoc (fail : Option String) (docs : List (Nat × α)) (nid : Nat)
    (d : α) : Except String (List (Nat × α) × Nat) :=
  match fail with
  | some e => .error e
  | none => .ok (docs ++ [(nid, d)], nid + 1)

/-- First seed chord from `seed` in `src/main.py`. -/
def seedChord1 : Chord :=
  { name := "C Major 7", symbol := "Cmaj7", root := "C", quality := "major7",
    notes := ["C", "E", "G", "B"], extensions := some ["9", "13"],
    voicings := some [["C", "E", "B", "D"], ["E", "B", "D", "G"]],
    tags := some ["rootless", "shell"] }

/-- Second seed chord from `seed` in `src/main.py`. -/
def seedChord2 : Chord :=
  { name := "G7", symbol := "G7", root := "G", quality := "dominant7",
    notes := ["G", "B", "D", "F"], extensions := some ["9", "13"],
    voicings := some [["F", "B", "E", "A"], ["B", "E", "A", "D"]],
    tags := some ["altered", "rootless"] }

/-- Third seed chord from `seed` in `src/main.py`. -/
def seedChord3 : Chord :=
  { name := "D Minor 7", symbol := "Dm7", root := "D", quality := "minor7",
    notes := ["D", "F", "A", "C"], extensions := some ["9", "11"],
    voicings := some [["C", "F", "A", "E"], ["F", "A", "C", "E"]],
    tags := some ["shell"] }

/-- Seed progression from `seed` in `src/main.py`. -/
def seedProgression : Progression :=
  { name := "ii-V-I in C", key := "C", roman_numerals := ["ii", "V", "I"],
    chords := ["Dm7", "G7", "Cmaj7"], style := some "bebop" }

/-- Seed lesson from `seed` in `src/main.py`. -/
def seedLesson : Lesson :=
  { title := "Rootless ii–V–I Voicings", level := "intermediate",
    content := "\n### Goal\nPlay smooth rootless voicings for a ii–V–I in C.\n\n### Steps\n- Left hand: keep time with 2 and 4\n- Right hand: play Dm9 (C–E–F–A), G13 (F–A–B–E), Cmaj9 (E–A–B–D)\n- Practice in all 12 keys using the circle of fifths\n",
    tags := some ["voicings", "ii-v-i", "practice"] }

/-- The body of the `seed` handler's `try` block: for each of the chord,
progression and lesson collections, query one existing record and insert
the starter set only when that query came back empty.  Mirrors `seed` in
`src/main.py` lines 56-93. -/
def seedRun (fail : Option String) (s : Store) : Except String Store := do
  let existing ← getDocs fail s.chords (fun _ => true) 1
  let (cs, n) ←
    if existing.isEmpty then do
      let (c1, n1) ← createDoc fail s.chords s.nextId seedChord1
      let (c2, n2) ← createDoc fail c1 n1 seedChord2
      createDoc fail c2 n2 seedChord3
    else pure (s.chords, s.nextId)
  let existingProg ← getDocs fail s.progressions (fun _ => true) 1
  let (ps, n') ←
    if existingProg.isEmpty then createDoc fail s.progressions n seedProgression
    else pure (s.progressions, n)
  let existingLesson ← getDocs fail s.lessons (fun _ => true) 1
  let (ls, n'') ←
    if existingLesson.isEmpty then createDoc fail s.lessons n' seedLesson
    else pure (s.lessons, n')
  pure { chords := cs, progressions := ps, lessons := ls,
         favorites := s.favorites, nextId := n'' }

/-- `POST /seed` handler (`seed` in `src/main.py`): on success returns
`\x7b"status": "ok"\x7d`; any storage exception is surfaced as HTTP 500 with
the exception's message as detail. -/
def seed (db : DB) : DB × Except Http StatusResp :=
  match seedRun db.fail db.store with
  | .ok s => ({ db with store := s }, .ok { status := "ok" })
  | .error e => (db, .error { status := 500, detail := e })

/-- The successful effect of one `POST /seed` on the store, in closed form:
each empty collection receives its starter records with consecutively
assigned ids, non-empty collections are untouched. -/
def seedStore (s : Store) : Store :=
  let n1 := if s.chords.isEmpty then s.nextId + 3 else s.nextId
  let n2 := if s.progressions.isEmpty then n1 + 1 else n1
  let n3 := if s.lessons.isEmpty then n2 + 1 else n2
  { chords :=
      if s.chords.isEmpty
      then s.chords ++ [(s.nextId, seedChord1), (s.nextId + 1, seedChord2),
                        (s.nextId + 2, seedChord3)]
      else s.chords,
    progressions :=
      if s.progressions.isEmpty
      then s.progressions ++ [(n1, seedProgression)] else s.progressions,
    lessons :=
      if s.lessons.isEmpty then s.lessons ++ [(n2, seedLesson)] else s.lessons,
    favorites := s.favorites, nextId := n3 }

/-- Lower-case a string, character by character (the case folding behind the
store's case-insensitive matching and the spec's "case-insensitive"). -/
def lowerStr (s : String) : List Char := s.data.map Char.toLower

/-- `startsWithChars n h` holds when `n` occurs at the front of `h`. -/
def startsWithChars : List Char → List Char → Bool
  | [], _ => true
  | _ :: _, [] => false
  | a :: as, b :: bs => a == b && startsWithChars as bs

/-- `hasSubChars n h` holds when `n` occurs contiguously somewhere in `h`. -/
def hasSubChars (n : List Char) : List Char → Bool
  | [] => n.isEmpty
  | c :: t => startsWithChars n (c :: t) || hasSubChars n t

/-- Modelled from the spec: `database.py` is not under `src/`, so the store's
evaluation of the filter `\x7b"$regex": q, "$options": "i"\x7d` built by
`list_chords` is modelled by the spec's documented filter semantics, a
"substring, case-insensitive match": `strContainsCI hay q` holds when `q`
occurs in `hay` ignoring case. -/
def strContainsCI (hay q : String) : Bool :=
  hasSubChars (lowerStr q) (lowerStr hay)

/-- The filter `list_chords` hands to the store: `\x7b\x7d` (match all) unless
`q` is truthy, i.e. present and non-empty, in which case the documented
case-insensitive substring match on `name` OR `symbol`
(`src/main.py` lines 100-104). -/
def chordFilter (q : Option String) : Nat × Chord → Bool :=
  match q with
  | none => fun _ => true
  | some s =>
    if s.isEmpty then fun _ => true
    else fun p => strContainsCI p.2.name s || strContainsCI p.2.symbol s

/-- `GET /chords` handler (`list_chords` in `src/main.py`): optional filter,
then each document's `_id` stringified; storage failure becomes HTTP 500. -/
def list_chords (db : DB) (q : Option String) :
    Except Http (List (String × Chord)) :=
  match getDocs db.fail db.store.chords (chordFilter q) 0 with
  | .ok docs => .ok (docs.map fun p => (toString p.1, p.2))
  | .error e => .error { status := 500, detail := e }

/-- `GET /progressions` handler (`list_progressions` in `src/main.py`). -/
def list_progressions (db : DB) : Except Http (List (String × Progression)) :=
  match getDocs db.fail db.store.progressions (fun _ => true) 0 with
  | .ok docs => .ok (docs.map fun p => (toString p.1, p.2))
  | .error e => .error { status := 500, detail := e }

/-- `GET /lessons` handler (`list_lessons` in `src/main.py`). -/
def list_lessons (db : DB) : Except Http (List (String × Lesson)) :=
  match getDocs db.fail db.store.lessons (fun _ => true) 0 with
  | .ok docs => .ok (docs.map fun p => (toString p.1, p.2))
  | .error e => .error { status := 500, detail := e }

/-- Request body for `POST /favorites` (`FavoriteIn` in `src/main.py`):
`client_id`, `kind`, `ref` required strings, `note` optional. -/
structure FavoriteIn where
  client_id : String
  kind : String
  ref : String
  note : Option String
deriving DecidableEq

/-- `Favorite(**fav.model_dump())`: field-by-field copy of the request body
into the stored schema. -/
def favOfIn (f : FavoriteIn) : Favorite :=
  { client_id := f.client_id, kind := f.kind, ref := f.ref, note := f.note }

/-- `POST /favorites` handler body (`add_favorite` in `src/main.py`): insert
the favorite, answer `\x7b"status": "saved"\x7d`; storage failure → HTTP 500. -/
def add_favorite (db : DB) (fav : FavoriteIn) : DB × Except Http StatusResp :=
  match createDoc db.fail db.store.favorites db.store.nextId (favOfIn fav) with
  | .ok (fs, n) =>
    ({ db with store := { db.store with favorites := fs, nextId := n } },
     .ok { status := "saved" })
  | .error e => (db, .error { status := 500, detail := e })

/-- A raw JSON body for `POST /favorites` before framework validation: each
of the four fields either present (with a string value) or absent. -/
structure RawBody where
  client_id : Option String
  kind : Option String
  ref : Option String
  note : Option String
deriving DecidableEq

/-- Modelled from the spec: the framework's (pydantic) validation of the
request body against `FavoriteIn` is not part of `src/`.  Per the spec, a
malformed body — one missing a required field — is auto-rejected; a body with
`client_id`, `kind` and `ref` present parses, `note` defaulting to absent. -/
def parseFavoriteIn (b : RawBody) : Option FavoriteIn :=
  match b.client_id, b.kind, b.ref with
  | some c, some k, some r =>
    some { client_id := c, kind := k, ref := r, note := b.note }
  | _, _, _ => none

/-- The framework's 4xx response to a body failing validation (FastAPI
answers 422 Unprocessable Entity). -/
def validationError : Http := { status := 422, detail := "validation error" }

/-- Full `POST /favorites` endpoint: framework validation, then the handler.
A body failing validation never reaches `add_favorite`. -/
def post_favorites (db : DB) (b : RawBody) : DB × Except Http StatusResp :=
  match parseFavoriteIn b with
  | none => (db, .error validationError)
  | some fav => add_favorite db fav

/-- `GET /favorites/\x7bclient_id\x7d` handler (`get_favorites` in
`src/main.py`): equality filter on `client_id`, ids stringified. -/
def get_favorites (db : DB) (cid : String) :
    Except Http (List (String × Favorite)) :=
  match getDocs db.fail db.store.favorites (fun p => p.2.client_id == cid) 0 with
  | .ok docs => .ok (docs.map fun p => (toString p.1, p.2))
  | .error e => .error { status := 500, detail := e }

/-- `str(e)[:50]` — Python slicing counts code points, as does `List.take`
on the string's character list. -/
def trunc (s : String) : String := ⟨s.data.take 50⟩

/-- The state `GET /test` can observe of the database object: the outcome of
accessing `hasattr(db, name)` / `db.name` (`.ok none` = no name attribute,
`.error` = the attribute access itself raises, caught by the handler's outer
`except`), and the outcome of `db.list_collection_names()`. -/
structure DBConn where
  nameAttr : Except String (Option String)
  listCollectionNames : Except String (List String)

/-- Environment for `GET /test`: the module-level `db` handle (`none` models
`db is None`) and the `DATABASE_URL` environment variable. -/
structure TestEnv where
  db : Option DBConn
  databaseUrl : Option String

/-- The diagnostic object `GET /test` returns (`test_database` in
`src/main.py`). -/
structure TestResponse where
  backend : String
  database : String
  database_url : Option String
  database_name : Option String
  connection_status : String
  collections : List String
deriving DecidableEq

/-- `GET /test` handler (`test_database` in `src/main.py` lines 24-52):
builds a default response, then fills it in, catching any exception from the
database and degrading the `database` field to a descriptive string.  The
`nameAttr` error branch is the handler's outer `except`, which fires before
`connection_status` is assigned; the `listCollectionNames` error branch is the
inner `except`. -/
def test_database (env : TestEnv) : TestResponse :=
  match env.db with
  | none =>
    { backend := "✅ Running", database := "⚠️  Available but not initialized",
      database_url := none, database_name := none,
      connection_status := "Not Connected", collections := [] }
  | some d =>
    let url := if env.databaseUrl.isSome then "✅ Set" else "❌ Not Set"
    match d.nameAttr with
    | .error e =>
      { backend := "✅ Running", database := "❌ Error: " ++ trunc e,
        database_url := some url, database_name := none,
        connection_status := "Not Connected", collections := [] }
    | .ok nm =>
      let dname := match nm with | some n => n | none => "✅ Connected"
      match d.listCollectionNames with
      | .ok cols =>
        { backend := "✅ Running", database := "✅ Connected & Working",
          database_url := some url, database_name := some dname,
          connection_status := "Connected", collections := cols.take 10 }
      | .error e =>
        { backend := "✅ Running",
          database := "⚠️  Connected but Error: " ++ trunc e,
          database_url := some url, database_name := some dname,
          connection_status := "Connected", collections := [] }

/-- `q` is a case-insensitive substring of `hay`: after case folding, the
characters of `q` appear contiguously inside those of `hay`.  This is the
spec's reading of the filter ("contains q as a case-insensitive substring"),
stated independently of the executable matcher. -/
def IsSubstringCI (q hay : String) : Prop :=
  ∃ l r, lowerStr hay = l ++ lowerStr q ++ r

/-- C1's property at a database: a second `POST /seed` changes nothing and
still answers ok, and the first call appends the three fixed chords, the one
progression and the one lesson to exactly the collections that were empty,
leaving non-empty collections untouched. -/
def SeedIdem (db : DB) : Prop :=
  (seed (seed db).1).1 = (seed db).1
  ∧ (seed (seed db).1).2 = .ok { status := "ok" }
  ∧ ((seed db).1.store.chords.map Prod.snd
      = if db.store.chords.isEmpty
        then db.store.chords.map Prod.snd ++ [seedChord1, seedChord2, seedChord3]
        else db.store.chords.map Prod.snd)
  ∧ ((seed db).1.store.progressions.map Prod.snd
      = if db.store.progressions.isEmpty
        then db.store.progressions.map Prod.snd ++ [seedProgression]
        else db.store.progressions.map Prod.snd)
  ∧ ((seed db).1.store.lessons.map Prod.snd
      = if db.store.lessons.isEmpty
        then db.store.lessons.map Prod.snd ++ [seedLesson]
        else db.store.lessons.map Prod.snd)

/-- C2's property at a database and query: `GET /chords?q=` succeeds and its
result holds exactly the stored chords whose name or symbol contains `q`
case-insensitively, each with its id stringified, and no others. -/
def ChordsQueryExact (db : DB) (q : String) : Prop :=
  ∃ docs, list_chords db (some q) = .ok docs ∧
    ∀ res, res ∈ docs ↔ ∃ p, p ∈ db.store.chords ∧ res = (toString p.1, p.2)
      ∧ (IsSubstringCI q p.2.name ∨ IsSubstringCI q p.2.symbol)

/-- C4's property: creating a favorite and then querying by its client id
yields a record whose client_id, kind and ref match the body just posted. -/
def FavoriteRoundTrip (db : DB) (fav : FavoriteIn) : Prop :=
  ∃ l, get_favorites (add_favorite db fav).1 fav.client_id = .ok l
    ∧ ∃ r ∈ l, r.2.client_id = fav.client_id ∧ r.2.kind = fav.kind
      ∧ r.2.ref = fav.ref

/-- C7 (amended)'s property: under a storage failure with message `e`, every
handler answers HTTP 500 with the full message `e` as detail. -/
def StorageFailure500 (db : DB) (e : String) : Prop :=
  (seed db).2 = .error { status := 500, detail := e }
  ∧ (∀ q, list_chords db q = .error { status := 500, detail := e })
  ∧ list_progressions db = .error { status := 500, detail := e }
  ∧ list_lessons db = .error { status := 500, detail := e }
  ∧ (∀ fav, (add_favorite db fav).2 = .error { status := 500, detail := e })
  ∧ (∀ cid, get_favorites db cid = .error { status := 500, detail := e })

/-- C8's property: a `POST /favorites` body parses exactly when client_id,
kind and ref are all present; a failing body is rejected with the framework's
4xx before any insert (database unchanged); an accepted body is inserted
verbatim and answered with `\x7b"status": "saved"\x7d`. -/
def FavoritesValidation (db : DB) (b : RawBody) : Prop :=
  ((parseFavoriteIn b).isSome
      ↔ (b.client_id.isSome ∧ b.kind.isSome ∧ b.ref.isSome))
  ∧ (parseFavoriteIn b = none → post_favorites db b = (db, .error validationError))
  ∧ (∀ fav, parseFavoriteIn b = some fav →
      (post_favorites db b).2 = .ok { status := "saved" }
      ∧ (post_favorites db b).1.store.favorites
          = db.store.favorites ++ [(db.store.nextId, favOfIn fav)])

/-- C10's property: a favorites body with an arbitrary string `k` as kind is
accepted and stored with that kind verbatim. -/
def KindUnvalidated (db : DB) (c k r : String) (n : Option String) : Prop :=
  (post_favorites db { client_id := some c, kind := some k, ref := some r, note := n }).2
      = .ok { status := "saved" }
  ∧ (post_favorites db { client_id := some c, kind := some k, ref := some r, note := n }).1.store.favorites
      = db.store.favorites
        ++ [(db.store.nextId, { client_id := c, kind := k, ref := r, note := n })]

/-- The store with all four collections empty. -/
def emptyStore : Store :=
  { chords := [], progressions := [], lessons := [], favorites := [], nextId := 0 }

/-- A healthy database over the empty store. -/
def emptyDB : DB := { store := emptyStore, fail := none }

/-- The database state after one successful `POST /seed` on the empty store. -/
def seededDB : DB := (seed emptyDB).1

/-- A storage error message longer than 50 characters, as a driver would
produce on connection loss. -/
def longMsg : String :=
  "ServerSelectionTimeoutError: could not reach mongodb primary at cluster0.example.net:27017"

/-- A database whose storage raises `longMsg` on every call. -/
def dbDown : DB := { store := emptyStore, fail := some longMsg }

/-- A well-formed favorites body. -/
def favBody : FavoriteIn :=
  { client_id := "client-1", kind := "chord", ref := "Cmaj7", note := none }

lemma seedRun_none (s : Store) : seedRun none s = .ok (seedStore s) := by
  rcases s with ⟨cs, ps, ls, fs, n⟩
  cases cs <;> cases ps <;> cases ls <;>
    simp [seedRun, seedStore, getDocs, createDoc, Bind.bind, Except.bind,
      pure, Except.pure]

lemma seed_none (db : DB) (h : db.fail = none) :
    seed db = ({ db with store := seedStore db.store }, .ok { status := "ok" }) := by
  simp [seed, h, seedRun_none]

lemma seedStore_chords_ne_nil (s : Store) : (seedStore s).chords ≠ [] := by
  rcases s with ⟨cs, ps, ls, fs, n⟩
  cases cs <;> simp [seedStore]

lemma seedStore_progressions_ne_nil (s : Store) : (seedStore s).progressions ≠ [] := by
  rcases s with ⟨cs, ps, ls, fs, n⟩
  cases ps <;> simp [seedStore]

lemma seedStore_lessons_ne_nil (s : Store) : (seedStore s).lessons ≠ [] := by
  rcases s with ⟨cs, ps, ls, fs, n⟩
  cases ls <;> simp [seedStore]

lemma seedStore_of_ne_nil (s : Store) (hc : s.chords ≠ [])
    (hp : s.progressions ≠ []) (hl : s.lessons ≠ []) : seedStore s = s := by
  rcases s with ⟨cs, ps, ls, fs, n⟩
  cases cs <;> cases ps <;> cases ls <;> simp_all [seedStore]

lemma seedStore_idem (s : Store) : seedStore (seedStore s) = seedStore s :=
  seedStore_of_ne_nil _ (seedStore_chords_ne_nil s)
    (seedStore_progressions_ne_nil s) (seedStore_lessons_ne_nil s)

lemma startsWithChars_iff (n h : List Char) :
    startsWithChars n h = true ↔ ∃ r, h = n ++ r := by
  induction n generalizing h with
  | nil => simp [startsWithChars]
  | cons a as ih =>
    cases h with
    | nil => simp [startsWithChars]
    | cons b bs =>
      simp only [startsWithChars, Bool.and_eq_true, beq_iff_eq, ih,
        List.cons_append, List.cons.injEq]
      constructor
      · rintro ⟨rfl, r, rfl⟩; exact ⟨r, rfl, rfl⟩
      · rintro ⟨r, rfl, rfl⟩; exact ⟨rfl, r, rfl⟩

lemma hasSubChars_iff (n h : List Char) :
    hasSubChars n h = true ↔ ∃ l r, h = l ++ n ++ r := by
  induction h with
  | nil =>
    simp only [hasSubChars, List.isEmpty_iff]
    constructor
    · rintro rfl; exact ⟨[], [], rfl⟩
    · rintro ⟨l, r, he⟩
      rcases List.append_eq_nil.mp (List.append_eq_nil.mp he.symm).1 with ⟨-, h2⟩
      exact h2
  | cons c t ih =>
    simp only [hasSubChars, Bool.or_eq_true, startsWithChars_iff, ih]
    constructor
    · rintro (⟨r, hr⟩ | ⟨l, r, hr⟩)
      · exact ⟨[], r, by simpa using hr⟩
      · exact ⟨c :: l, r, by simp [hr]⟩
    · rintro ⟨l, r, hr⟩
      cases l with
      | nil => exact .inl ⟨r, by simpa using hr⟩
      | cons x xs =>
        simp only [List.cons_append, List.cons.injEq] at hr
        exact .inr ⟨xs, r, hr.2⟩

lemma strContainsCI_iff (hay q : String) :
    strContainsCI hay q = true ↔ IsSubstringCI q hay := by
  simp [strContainsCI, IsSubstringCI, hasSubChars_iff]

lemma isSubstringCI_empty (hay : String) : IsSubstringCI "" hay :=
  ⟨[], lowerStr hay, by simp [lowerStr]⟩

lemma chordFilter_iff (q : String) (p : Nat × Chord) :
    chordFilter (some q) p = true
      ↔ (IsSubstringCI q p.2.name ∨ IsSubstringCI q p.2.symbol) := by
  by_cases hq : q.isEmpty
  · have hq' : q = "" := (String.isEmpty_iff q).mp hq
    subst hq'
    simp [chordFilter, hq, isSubstringCI_empty]
  · simp [chordFilter, hq, strContainsCI_iff]

/-- C1: `POST /seed` is idempotent — calling it twice in succession with no
interleaving writes leaves the store with exactly the same three chord
records, one progression record and one lesson record as after the first
call, and each of the chord, progression and lesson collections is seeded
only if that collection is empty at the time of the check. -/
theorem seed_idempotent (db : DB) (h : db.fail = none) : SeedIdem db := by
  have h1 := seed_none db h
  have hfail : (seed db).1.fail = none := by rw [h1]; exact h
  have h2 := seed_none (seed db).1 hfail
  simp only [SeedIdem]
  rw [h2, h1]
  refine ⟨?_, ?_, ?_, ?_, ?_⟩
  · simp [seedStore_idem]
  · simp
  · by_cases hc : db.store.chords.isEmpty <;> simp [seedStore, hc]
  · by_cases hp : db.store.progressions.isEmpty <;> simp [seedStore, hp]
  · by_cases hl : db.store.lessons.isEmpty <;> simp [seedStore, hl]

/-- Witness for C1 at the empty database. -/
theorem seed_idempotent_witness : emptyDB.fail = none ∧ SeedIdem emptyDB :=
  ⟨rfl, seed_idempotent emptyDB rfl⟩

/-- C2: for every query string `q`, `GET /chords?q=` returns exactly the
stored chord records whose name or symbol contains `q` as a case-insensitive
substring, and no others. -/
theorem chords_query_exact (db : DB) (q : String) (h : db.fail = none) :
    ChordsQueryExact db q := by
  refine ⟨(db.store.chords.filter (chordFilter (some q))).map
    (fun p => (toString p.1, p.2)), ?_, ?_⟩
  · simp [list_chords, getDocs, h]
  · intro res
    simp only [List.mem_map, List.mem_filter]
    constructor
    · rintro ⟨p, ⟨hp, hf⟩, rfl⟩
      exact ⟨p, hp, rfl, (chordFilter_iff q p).mp hf⟩
    · rintro ⟨p, hp, rfl, hspec⟩
      exact ⟨p, ⟨hp, (chordFilter_iff q p).mpr hspec⟩, rfl⟩

/-- Witness for C2: the seeded database queried with "maj7". -/
theorem chords_query_exact_witness :
    seededDB.fail = none ∧ ChordsQueryExact seededDB "maj7" :=
  ⟨rfl, chords_query_exact seededDB "maj7" rfl⟩

/-- C3: `GET /chords` with no `q` parameter returns every stored chord
record, each carrying its id stringified. -/
theorem chords_all_with_string_id (db : DB) (h : db.fail = none) :
    list_chords db none
      = .ok (db.store.chords.map fun p => (toString p.1, p.2)) := by
  simp [list_chords, getDocs, chordFilter, h]

/-- Witness for C3 at the seeded database. -/
theorem chords_all_with_string_id_witness :
    seededDB.fail = none
    ∧ list_chords seededDB none
        = .ok (seededDB.store.chords.map fun p => (toString p.1, p.2)) :=
  ⟨rfl, chords_all_with_string_id seededDB rfl⟩

/-- C4: a successful `POST /favorites` followed by
`GET /favorites/\x7bclient_id\x7d` for the same client returns a record whose
client_id, kind and ref equal those just posted. -/
theorem favorite_round_trip (db : DB) (fav : FavoriteIn) (h : db.fail = none) :
    FavoriteRoundTrip db fav := by
  have hadd : (add_favorite db fav).1
      = { db with store := { db.store with
            favorites := db.store.favorites ++ [(db.store.nextId, favOfIn fav)],
            nextId := db.store.nextId + 1 } } := by
    simp [add_favorite, createDoc, h]
  refine ⟨((db.store.favorites ++ [(db.store.nextId, favOfIn fav)]).filter
      (fun p => p.2.client_id == fav.client_id)).map
      (fun p => (toString p.1, p.2)), ?_, ?_⟩
  · rw [hadd]
    simp [get_favorites, getDocs, h]
  · refine ⟨(toString db.store.nextId, favOfIn fav), ?_, rfl, rfl, rfl⟩
    rw [List.mem_map]
    refine ⟨(db.store.nextId, favOfIn fav), ?_, rfl⟩
    rw [List.mem_filter]
    refine ⟨List.mem_append_right _ ?_, by simp [favOfIn]⟩
    simp

/-- Witness for C4 at the empty database with a concrete body. -/
theorem favorite_round_trip_witness :
    emptyDB.fail = none ∧ FavoriteRoundTrip emptyDB favBody :=
  ⟨rfl, favorite_round_trip emptyDB favBody rfl⟩

/-- C5: with no stored progressions and no stored lessons,
`GET /progressions` and `GET /lessons` each return an empty array with a
success status — absence of results is never reported as NotFound. -/
theorem empty_store_empty_arrays (db : DB) (h : db.fail = none)
    (hp : db.store.progressions = []) (hl : db.store.lessons = []) :
    list_progressions db = .ok [] ∧ list_lessons db = .ok [] := by
  simp [list_progressions, list_lessons, getDocs, h, hp, hl]

/-- Witness for C5 at the empty database. -/
theorem empty_store_empty_arrays_witness :
    emptyDB.fail = none ∧ emptyDB.store.progressions = []
    ∧ emptyDB.store.lessons = []
    ∧ (list_progressions emptyDB = .ok [] ∧ list_lessons emptyDB = .ok []) :=
  ⟨rfl, rfl, rfl, empty_store_empty_arrays emptyDB rfl rfl rfl⟩

/-- C6: `GET /test` is total — for every database state (handle absent,
attribute access raising, collection listing raising) the handler returns a
diagnostic object whose status fields are the handler's descriptive strings,
with at most 10 collection names. -/
theorem test_database_total (env : TestEnv) :
    (test_database env).backend = "✅ Running"
    ∧ ((test_database env).connection_status = "Connected"
       ∨ (test_database env).connection_status = "Not Connected")
    ∧ ((test_database env).database = "⚠️  Available but not initialized"
       ∨ (test_database env).database = "✅ Connected & Working"
       ∨ (∃ e, (test_database env).database = "⚠️  Connected but Error: " ++ trunc e)
       ∨ (∃ e, (test_database env).database = "❌ Error: " ++ trunc e))
    ∧ (test_database env).collections.length ≤ 10 := by
  rcases env with ⟨d, u⟩
  cases d with
  | none => exact ⟨rfl, .inr rfl, .inl rfl, by simp [test_database]⟩
  | some c =>
    rcases c with ⟨na, lc⟩
    cases na with
    | error e =>
      exact ⟨rfl, .inr rfl, .inr (.inr (.inr ⟨e, rfl⟩)), by simp [test_database]⟩
    | ok nm =>
      cases lc with
      | ok cols =>
        refine ⟨rfl, .inl rfl, .inr (.inl rfl), ?_⟩
        exact List.length_take_le 10 cols
      | error e =>
        exact ⟨rfl, .inl rfl, .inr (.inr (.inl ⟨e, rfl⟩)), by simp [test_database]⟩

/-- C7 counterexample: under a storage failure whose message is longer than
50 characters, `POST /seed` answers HTTP 500 whose detail is the full
message, not its truncation — so the detail is not a truncated form of the
underlying error message. -/
theorem storage_error_counterexample :
    (seed dbDown).2 = .error { status := 500, detail := longMsg }
    ∧ (seed dbDown).2 ≠ .error { status := 500, detail := trunc longMsg }
    ∧ longMsg ≠ trunc longMsg := by
  refine ⟨rfl, ?_, by decide⟩
  intro hc
  have h1 : (seed dbDown).2 = Except.error { status := 500, detail := longMsg } := rfl
  rw [h1] at hc
  simp only [Except.error.injEq, Http.mk.injEq] at hc
  exact absurd hc.2 (by decide)

/-- C7 (amended): a storage failure during any handler is surfaced as HTTP
500 whose detail is the full underlying error message, with no retry. -/
theorem storage_error_full_message (db : DB) (e : String)
    (h : db.fail = some e) : StorageFailure500 db e := by
  refine ⟨?_, ?_, ?_, ?_, ?_, ?_⟩ <;>
    simp [seed, seedRun, getDocs, createDoc, list_chords, list_progressions,
      list_lessons, add_favorite, get_favorites, h, Bind.bind, Except.bind]

/-- Witness for the amended C7 at a concrete failing database. -/
theorem storage_error_full_message_witness :
    dbDown.fail = some longMsg ∧ StorageFailure500 dbDown longMsg :=
  ⟨rfl, storage_error_full_message dbDown longMsg rfl⟩

/-- C8: `POST /favorites` accepts a body exactly when client_id, kind and
ref are present; a missing required field is rejected with the framework's
4xx before any insert, and an accepted body is inserted and answered with
`\x7b"status": "saved"\x7d`. -/
theorem favorites_validation (db : DB) (b : RawBody) (h : db.fail = none) :
    FavoritesValidation db b := by
  rcases b with ⟨c, k, r, n⟩
  refine ⟨?_, ?_, ?_⟩
  · cases c <;> cases k <;> cases r <;> simp [parseFavoriteIn]
  · intro hp
    cases c <;> cases k <;> cases r <;>
      simp_all [parseFavoriteIn, post_favorites]
  · intro fav hp
    cases c <;> cases k <;> cases r <;>
      simp_all [parseFavoriteIn, post_favorites, add_favorite, createDoc,
        favOfIn, h]

/-- Witness for C8 at the empty database with a well-formed body. -/
theorem favorites_validation_witness :
    emptyDB.fail = none
    ∧ FavoritesValidation emptyDB
        { client_id := some "client-1", kind := some "chord",
          ref := some "Cmaj7", note := none } :=
  ⟨rfl, favorites_validation emptyDB _ rfl⟩

/-- C9: `GET /chords` with `q` present but empty behaves identically to
`GET /chords` with no `q` parameter — the handler tests the truthiness of
`q`, so an empty string disables the filter. -/
theorem chords_empty_query_unfiltered (db : DB) :
    list_chords db (some "") = list_chords db none := by
  have hf : chordFilter (some "") = chordFilter none := by
    funext p
    simp [chordFilter, show "".isEmpty = true from rfl]
  unfold list_chords
  rw [hf]

/-- C10: `POST /favorites` never validates `kind` against
\x7b"chord", "progression"\x7d — any string kind is accepted and stored
verbatim when storage does not fail. -/
theorem kind_unvalidated (db : DB) (c k r : String) (n : Option String)
    (h : db.fail = none) : KindUnvalidated db c k r n := by
  simp [KindUnvalidated, post_favorites, parseFavoriteIn, add_favorite,
    createDoc, favOfIn, h]

/-- Witness for C10: kind "lesson", outside the documented enumeration. -/
theorem kind_unvalidated_witness :
    emptyDB.fail = none ∧ KindUnvalidated emptyDB "client-1" "lesson" "Cmaj7" none :=
  ⟨rfl, kind_unvalidated emptyDB "client-1" "lesson" "Cmaj7" none rfl⟩
